import Mathlib

/-!
Verification development for the `loa-scraper` program (`src/main.rs`).

Strings from the Rust source (`&str`) are modelled at the character-list
level (`List Char`); the only characters relevant to the heuristics are
ASCII, so Lean's ASCII `Char.isUpper`/`Char.isLower`/`Char.isWhitespace`
model Rust's `char::is_uppercase`/`is_lowercase`/`is_whitespace` faithfully
on the inputs of interest.
-/

deriving instance DecidableEq for Except

namespace Loa

/-- Model of Rust `str::trim`: drop whitespace from both ends. -/
def trimChars (s : List Char) : List Char :=
  ((s.dropWhile Char.isWhitespace).reverse.dropWhile Char.isWhitespace).reverse

/-- Model of Rust `str::starts_with`: `leadsWith s pat` holds when `pat`
begins the list `s`. -/
def leadsWith : List Char → List Char → Bool
  | _, [] => true
  | [], _ :: _ => false
  | c :: cs, p :: ps => c == p && leadsWith cs ps

/-- Model of Rust `str::contains` (substring search): some suffix of `s`
begins with `pat`. -/
def containsSub : List Char → List Char → Bool
  | [], pat => leadsWith [] pat
  | c :: t, pat => leadsWith (c :: t) pat || containsSub t pat

/-- Accumulator-based worker for `words` (the accumulator holds the current
word reversed). -/
def wordsAux : List Char → List Char → List (List Char)
  | [], acc => if acc = [] then [] else [acc.reverse]
  | c :: cs, acc =>
    if c.isWhitespace then
      if acc = [] then wordsAux cs [] else acc.reverse :: wordsAux cs []
    else
      wordsAux cs (c :: acc)

/-- Model of Rust `str::split_whitespace().collect()`: the maximal
non-whitespace runs of `s`, in order. -/
def words (s : List Char) : List (List Char) := wordsAux s []

/-- Model of `word.chars().next().is_some_and(|c| c.is_uppercase())`. -/
def firstCharUpper : List Char → Bool
  | [] => false
  | c :: _ => c.isUpper

/-- The fixed denylist `non_author_patterns` from `is_likely_author`
(src/main.rs lines 109-125), verbatim. -/
def non_author_patterns : List (List Char) :=
  [ "The American Short Story".data
  , "The Best American".data
  , "American Poetry".data
  , "Collected Works".data
  , "Complete Works".data
  , "Selected Works".data
  , "Early Works".data
  , "Later Works".data
  , "Writings".data
  , "Letters".data
  , "Speeches".data
  , "Documents".data
  , "Chronicles".data
  , "Anthology".data
  , "Collection".data
  ]

/-- Model of `is_likely_author` (src/main.rs lines 100-169): ordered
heuristic rules deciding whether `text` is a personal name. -/
def is_likely_author (text : List Char) : Bool :=
  if leadsWith text ("The ".data) then false
  else if non_author_patterns.any (fun p => containsSub text p) then false
  else
    match words text with
    | [] => false
    | [_] => text.any (fun c => c.isLower)
    | w₀ :: w₁ :: rest =>
      let last_word := (w₀ :: w₁ :: rest).getLastD []
      if firstCharUpper w₀ && firstCharUpper last_word then
        if (w₀ :: w₁ :: rest).length == 2 &&
            (containsSub text ("War".data) || containsSub text ("American".data) ||
             containsSub text ("New ".data) || containsSub text ("Old ".data)) then
          false
        else
          true
      else
        false

/-- Model of `title_text.find(':')` followed by the two byte slices
`title_text[..colon_pos]` and `title_text[colon_pos + 1..]`: splits at the
first colon, returning the text before it and the text after it. -/
def splitFirstColon : List Char → Option (List Char × List Char)
  | [] => none
  | c :: cs =>
    if c == ':' then some ([], cs)
    else (splitFirstColon cs).map (fun p => (c :: p.1, p.2))

/-- The author/title split inlined in `parse_volumes`
(src/main.rs lines 202-216): split at the first colon; if the trimmed
pre-colon text is likely an author, return (author, trimmed remainder);
otherwise the author is empty and the whole label is the title. -/
def classify (title_text : List Char) : List Char × List Char :=
  match splitFirstColon title_text with
  | some (before_colon, after_colon) =>
    if is_likely_author (trimChars before_colon) then
      (trimChars before_colon, trimChars after_colon)
    else
      ([], title_text)
  | none => ([], title_text)

/-- Model of Rust `str::parse::<u32>()` on the trimmed numeric label: an
optional leading `+`, then one or more ASCII digits, value below `2^32`;
anything else fails. -/
def parseU32 (s : List Char) : Option Nat :=
  let digits := match s with
    | '+' :: t => t
    | t => t
  if digits = [] then none
  else if digits.all (fun c => c.isDigit) then
    let n := digits.foldl (fun acc c => acc * 10 + (c.toNat - 48)) 0
    if n < 4294967296 then some n else none
  else none

/-- One catalog-entry fragment (`li.content-listing.content-listing--book`),
abstracted to the results of the three sub-element selections made in
`parse_volumes` (src/main.rs lines 184-186): the first `a` descendant
(carrying an optional `href` attribute), the first `i.book-listing__number`
descendant (its collected text), and the first `b.content-listing__title`
descendant (its collected text). `none` means the selector matched
nothing inside the fragment. -/
structure BookElement where
  link_element : Option (Option (List Char))
  number_element : Option (List Char)
  title_element : Option (List Char)

/-- The tuple type `VolumeData = (u32, String, String, String, String)`:
volume number, title, author, detail link, original label. -/
abbrev VolumeData := Nat × List Char × List Char × List Char × List Char

/-- The per-fragment body of the loop in `parse_volumes`
(src/main.rs lines 183-226): require all three sub-elements, read the
`href` (empty when absent), parse the trimmed numeric text with
`unwrap_or(0)`, and when the number is positive classify the trimmed title
text and emit the record; otherwise emit nothing. -/
def processFragment (b : BookElement) : Option VolumeData :=
  match b.link_element, b.number_element, b.title_element with
  | some link, some number_text, some title_raw =>
    let href := link.getD []
    let volume_number := (parseU32 (trimChars number_text)).getD 0
    let title_text := trimChars title_raw
    if volume_number > 0 then
      let p := classify title_text
      some (volume_number, p.2, p.1, href, title_text)
    else
      none
  | _, _, _ => none

/-- Model of `parse_volumes` (src/main.rs lines 173-231) on the sequence of
catalog-entry fragments found in the document: process each fragment, then
`volumes.sort_by_key(|v| v.0)` — a stable sort by volume number. (The
`Selector::parse` calls are on fixed well-formed constants, so the `Err`
branch of the Rust function is unreachable and not modelled.) -/
def parse_volumes (frags : List BookElement) : List VolumeData :=
  (frags.filterMap processFragment).mergeSort (fun u v => u.1 ≤ v.1)

/-- Minimal model of a decoded `serde_json::Value`. -/
inductive JsonValue : Type where
  | null
  | bool (b : Bool)
  | num (n : Int)
  | str (s : String)
  | arr (elems : List JsonValue)
  | obj (fields : List (String × JsonValue))

/-- Model of `serde_json::Value::get(i)` with a numeric index: indexes into
an array, `none` on any other variant or out of range. -/
def jsonGet (j : JsonValue) (i : Nat) : Option JsonValue :=
  match j with
  | .arr elems => elems[i]?
  | _ => none

/-- Model of `serde_json::Value::as_array`. -/
def asArray (j : JsonValue) : Option (List JsonValue) :=
  match j with
  | .arr elems => some elems
  | _ => none

/-- Model of `serde_json::Value::as_str`. -/
def asStr (j : JsonValue) : Option String :=
  match j with
  | .str s => some s
  | _ => none

/-- Outcome of the Wikipedia opensearch HTTP exchange, abstracting the
`reqwest` send, the body read, and the `serde_json::from_str` decode
(external library calls): either the send fails, or reading the body text
fails, or a body string is obtained together with the decoder's result on
it (`none` when JSON parsing fails). -/
inductive ResponseOutcome where
  | send_error
  | text_error
  | text (body : String) (decoded : Option JsonValue)

/-- Model of `get_wikipedia_link` (src/main.rs lines 45-98) as a function of
the author string and the response outcome, with the Rust `Result<String>`
return type kept as `Except`. -/
def get_wikipedia_link (author : String) (resp : ResponseOutcome) :
    Except String String :=
  if author.isEmpty || author == "Unknown" then .ok ""
  else
    match resp with
    | .send_error => .ok ""
    | .text_error => .ok ""
    | .text body decoded =>
      if trimChars body.data = [] then .ok ""
      else
        match decoded with
        | none => .ok ""
        | some json =>
          match (jsonGet json 3).bind asArray with
          | some urls =>
            match urls.head?.bind asStr with
            | some url => if url.isEmpty then .ok "" else .ok url
            | none => .ok ""
          | none => .ok ""

/-- Model of `.unwrap_or_default()` on a `Result<String>`. -/
def unwrapOrDefault (r : Except String String) : String :=
  match r with
  | .ok s => s
  | .error _ => ""

/-- The CSV record struct `Volume` (src/main.rs lines 26-35). -/
structure Volume where
  volume_number : Nat
  title : String
  author : String
  author_wikipedia_link : String
  loa_detail_link : String
  original_volume_name : String
  own_volume : String

/-- The record construction in the main loop (src/main.rs lines 326-336):
attach the resolved Wikipedia link (default empty) and leave the reserved
`own_volume` column empty. -/
def make_volume (d : VolumeData) (resp : ResponseOutcome) : Volume :=
  ⟨d.1, String.mk d.2.1, String.mk d.2.2.1,
   unwrapOrDefault (get_wikipedia_link (String.mk d.2.2.1) resp),
   String.mk d.2.2.2.1, String.mk d.2.2.2.2, ""⟩

/-! Theorems. -/

/-- A list with no colon has no first-colon split. -/
theorem splitFirstColon_eq_none_of_not_mem {s : List Char} (h : ':' ∉ s) :
    splitFirstColon s = none := by
  induction s with
  | nil => rfl
  | cons c cs ih =>
    have h1 : c ≠ ':' := fun hc => h (hc ▸ List.mem_cons_self _ _)
    have h2 : ':' ∉ cs := fun hm => h (List.mem_cons_of_mem _ hm)
    simp [splitFirstColon, h1, ih h2]

/-- C3: for every raw label containing no colon, the classifier returns
author = "" and title = the raw label unchanged. -/
theorem claim_c3 (s : List Char) (h : ':' ∉ s) : classify s = ([], s) := by
  simp [classify, splitFirstColon_eq_none_of_not_mem h]

/-- Witness for C3 at the colon-free label "Walden". -/
theorem claim_c3_witness : classify ("Walden".data) = ([], "Walden".data) :=
  claim_c3 ("Walden".data) (by decide)

/-- C2: for every raw label whose text before the first colon, after
trimming, starts with "The ", the classifier returns author = "" and
title = the whole raw label unchanged, regardless of the other name rules. -/
theorem claim_c2 (s b a : List Char) (hsplit : splitFirstColon s = some (b, a))
    (hthe : leadsWith (trimChars b) ("The ".data) = true) :
    classify s = ([], s) := by
  simp [classify, hsplit, is_likely_author, hthe]

/-- Witness for C2 at "The American Short Story: Volume One". -/
theorem claim_c2_witness :
    classify ("The American Short Story: Volume One".data)
      = ([], "The American Short Story: Volume One".data) :=
  claim_c2 ("The American Short Story: Volume One".data)
    ("The American Short Story".data) (" Volume One".data)
    (by decide) (by decide)

/-- C4: for a single-word pre-colon candidate (not starting with "The ",
containing no collective-work denylist substring), the classifier splits
off that word as the author exactly when it contains a lowercase letter,
and otherwise keeps the whole label as the title. -/
theorem claim_c4 (s b a w : List Char)
    (hsplit : splitFirstColon s = some (b, a))
    (hw : words (trimChars b) = [w])
    (hthe : leadsWith (trimChars b) ("The ".data) = false)
    (hpat : ∀ p ∈ non_author_patterns, containsSub (trimChars b) p = false) :
    classify s =
      (if (trimChars b).any (fun c => c.isLower) then (trimChars b, trimChars a)
       else ([], s)) := by
  have hany : non_author_patterns.any (fun p => containsSub (trimChars b) p) = false := by
    rw [List.any_eq_false]
    intro p hp
    simp [hpat p hp]
  cases hlow : (trimChars b).any (fun c => c.isLower) with
  | true => simp [classify, hsplit, is_likely_author, hthe, hany, hw, hlow]
  | false => simp [classify, hsplit, is_likely_author, hthe, hany, hw, hlow]

/-- Witness for C4: "Aristotle" (has lowercase) is split off as the author,
while the all-caps "USA" is not. -/
theorem claim_c4_witness :
    classify ("Aristotle: Poetics".data) = ("Aristotle".data, "Poetics".data) ∧
    classify ("USA: Stories".data) = ([], "USA: Stories".data) := by
  constructor
  · have h := claim_c4 ("Aristotle: Poetics".data) ("Aristotle".data)
      (" Poetics".data) ("Aristotle".data) (by decide) (by decide) (by decide)
      (by decide)
    exact h.trans (by decide)
  · have h := claim_c4 ("USA: Stories".data) ("USA".data)
      (" Stories".data) ("USA".data) (by decide) (by decide) (by decide)
      (by decide)
    exact h.trans (by decide)

/-- C1 counterexample: "The Deerslayer" before the colon consists of two
words both starting with an uppercase letter and contains none of the
denylisted substrings, yet the classifier does not treat it as an author
(the "The " rule fires first), contradicting the claim as stated. -/
theorem claim_c1_counterexample :
    splitFirstColon ("The Deerslayer: A Tale".data)
        = some ("The Deerslayer".data, " A Tale".data) ∧
    words (trimChars ("The Deerslayer".data)) = ["The".data, "Deerslayer".data] ∧
    firstCharUpper ("The".data) = true ∧
    firstCharUpper ("Deerslayer".data) = true ∧
    (∀ p ∈ non_author_patterns,
        containsSub (trimChars ("The Deerslayer".data)) p = false) ∧
    containsSub (trimChars ("The Deerslayer".data)) ("War".data) = false ∧
    containsSub (trimChars ("The Deerslayer".data)) ("American".data) = false ∧
    containsSub (trimChars ("The Deerslayer".data)) ("New ".data) = false ∧
    containsSub (trimChars ("The Deerslayer".data)) ("Old ".data) = false ∧
    classify ("The Deerslayer: A Tale".data)
      ≠ (trimChars ("The Deerslayer".data), trimChars (" A Tale".data)) := by
  decide

/-- C1 (amended): for every raw label whose trimmed pre-colon candidate has
exactly two words, both starting with an uppercase letter, does not start
with "The ", and contains none of the denylisted substrings (the
collective-work patterns and "War"/"American"/"New "/"Old "), the
classifier returns author = that candidate and title = the trimmed text
after the first colon. -/
theorem claim_c1_amended (s b a w₀ w₁ : List Char)
    (hsplit : splitFirstColon s = some (b, a))
    (hw : words (trimChars b) = [w₀, w₁])
    (h₀ : firstCharUpper w₀ = true)
    (h₁ : firstCharUpper w₁ = true)
    (hpat : ∀ p ∈ non_author_patterns, containsSub (trimChars b) p = false)
    (hthe : leadsWith (trimChars b) ("The ".data) = false)
    (hwar : containsSub (trimChars b) ("War".data) = false)
    (hamer : containsSub (trimChars b) ("American".data) = false)
    (hnew : containsSub (trimChars b) ("New ".data) = false)
    (hold : containsSub (trimChars b) ("Old ".data) = false) :
    classify s = (trimChars b, trimChars a) := by
  have hany : non_author_patterns.any (fun p => containsSub (trimChars b) p) = false := by
    rw [List.any_eq_false]
    intro p hp
    simp [hpat p hp]
  simp [classify, hsplit, is_likely_author, hthe, hany, hw, h₀, h₁, hwar, hamer,
    hnew, hold]

/-- Witness for C1 (amended) at the spec's end-to-end example
"Mark Twain: The Adventures of Tom Sawyer". -/
theorem claim_c1_witness :
    classify ("Mark Twain: The Adventures of Tom Sawyer".data)
      = ("Mark Twain".data, "The Adventures of Tom Sawyer".data) := by
  have h := claim_c1_amended ("Mark Twain: The Adventures of Tom Sawyer".data)
    ("Mark Twain".data) (" The Adventures of Tom Sawyer".data)
    ("Mark".data) ("Twain".data)
    (by decide) (by decide) (by decide) (by decide) (by decide) (by decide)
    (by decide) (by decide) (by decide) (by decide)
  exact h.trans (by decide)

/-- C6: a fragment whose numeric label fails to parse as an unsigned
integer or parses to zero is discarded entirely: it yields no record, and
the parsed output of a document is unchanged by its presence. -/
theorem claim_c6 (b : BookElement) (t : List Char)
    (hnum : b.number_element = some t)
    (hbad : parseU32 (trimChars t) = none ∨ parseU32 (trimChars t) = some 0) :
    processFragment b = none ∧
      ∀ l₁ l₂, parse_volumes (l₁ ++ b :: l₂) = parse_volumes (l₁ ++ l₂) := by
  obtain ⟨lk, nm, tl⟩ := b
  simp only at hnum
  subst hnum
  have hnone : processFragment ⟨lk, some t, tl⟩ = none := by
    cases lk with
    | none => rfl
    | some link =>
      cases tl with
      | none => rfl
      | some title =>
        rcases hbad with h | h <;> simp [processFragment, h]
  refine ⟨hnone, fun l₁ l₂ => ?_⟩
  simp [parse_volumes, List.filterMap_append, List.filterMap_cons, hnone]

/-- Witness for C6: a non-numeric label "abc" yields no record, and a
zero label "0" leaves the parsed output empty. -/
theorem claim_c6_witness :
    processFragment ⟨some (some []), some ("abc".data), some ("T".data)⟩ = none ∧
    parse_volumes [⟨some (some []), some ("0".data), some ("T".data)⟩]
      = parse_volumes [] := by
  constructor
  · exact (claim_c6 ⟨some (some []), some ("abc".data), some ("T".data)⟩
      ("abc".data) rfl (Or.inl (by decide))).1
  · exact (claim_c6 ⟨some (some []), some ("0".data), some ("T".data)⟩
      ("0".data) rfl (Or.inr (by decide))).2 [] []

/-- C10: a record is produced from a fragment only when all three expected
sub-elements are present; a fragment missing its link element, its numeric
label element, or its title element is silently skipped, yielding no record
and leaving the parsed output of the document unchanged. -/
theorem claim_c10 (b : BookElement)
    (h : b.link_element = none ∨ b.number_element = none ∨
      b.title_element = none) :
    processFragment b = none ∧
      ∀ l₁ l₂, parse_volumes (l₁ ++ b :: l₂) = parse_volumes (l₁ ++ l₂) := by
  obtain ⟨lk, nm, tl⟩ := b
  simp only at h
  have hnone : processFragment ⟨lk, nm, tl⟩ = none := by
    rcases h with h | h | h
    · subst h; cases nm <;> cases tl <;> rfl
    · subst h; cases lk <;> cases tl <;> rfl
    · subst h; cases lk <;> cases nm <;> rfl
  refine ⟨hnone, fun l₁ l₂ => ?_⟩
  simp [parse_volumes, List.filterMap_append, List.filterMap_cons, hnone]

/-- Witness for C10: a fragment with link and number but no title element
yields no record and leaves the output empty. -/
theorem claim_c10_witness :
    processFragment ⟨some (some []), some ("1".data), none⟩ = none ∧
    parse_volumes [⟨some (some []), some ("1".data), none⟩]
      = parse_volumes [] := by
  have h := claim_c10 ⟨some (some []), some ("1".data), none⟩
    (Or.inr (Or.inr rfl))
  exact ⟨h.1, h.2 [] []⟩

/-- C5: for every fragment sequence, the parser's output is sorted
non-decreasingly by volume number; it is a permutation of the processed
records (nothing is deduplicated or dropped by the sort); and for every
volume number the records carrying it appear exactly as in document order
(the sort by number is stable). -/
theorem claim_c5 (frags : List BookElement) :
    (parse_volumes frags).Pairwise (fun u v => u.1 ≤ v.1) ∧
    (parse_volumes frags).Perm (frags.filterMap processFragment) ∧
    ∀ n : Nat,
      (parse_volumes frags).filter (fun v => v.1 == n)
        = (frags.filterMap processFragment).filter (fun v => v.1 == n) := by
  have htrans : ∀ a b c : VolumeData,
      decide (a.1 ≤ b.1) = true → decide (b.1 ≤ c.1) = true →
      decide (a.1 ≤ c.1) = true := by
    intro a b c h₁ h₂
    simp only [decide_eq_true_eq] at h₁ h₂ ⊢
    omega
  have htotal : ∀ a b : VolumeData,
      (decide (a.1 ≤ b.1) || decide (b.1 ≤ a.1)) = true := by
    intro a b
    simp only [Bool.or_eq_true, decide_eq_true_eq]
    omega
  refine ⟨?_, ?_, ?_⟩
  · have h := List.sorted_mergeSort htrans htotal (frags.filterMap processFragment)
    exact h.imp (fun hab => by simpa using hab)
  · exact List.mergeSort_perm _ _
  · intro n
    have hmem : ∀ x ∈ (frags.filterMap processFragment).filter
        (fun v : VolumeData => v.1 == n), x.1 = n := by
      intro x hx
      simpa using List.of_mem_filter hx
    have hpair : ((frags.filterMap processFragment).filter
        (fun v : VolumeData => v.1 == n)).Pairwise
        (fun a b : VolumeData => decide (a.1 ≤ b.1) = true) :=
      List.pairwise_of_forall_mem_list (fun a ha b hb => by
        simp [hmem a ha, hmem b hb])
    have hsub : List.Sublist
        ((frags.filterMap processFragment).filter
          (fun v : VolumeData => v.1 == n))
        ((frags.filterMap processFragment).mergeSort
          (fun u v => decide (u.1 ≤ v.1))) :=
      List.sublist_mergeSort htrans htotal hpair
        (List.filter_sublist (frags.filterMap processFragment))
    have hsub2 := hsub.filter (fun v : VolumeData => v.1 == n)
    have hself : (((frags.filterMap processFragment).filter
          (fun v : VolumeData => v.1 == n)).filter
          (fun v : VolumeData => v.1 == n))
        = ((frags.filterMap processFragment).filter
          (fun v : VolumeData => v.1 == n)) :=
      List.filter_eq_self.mpr (fun a ha => by
        simp only [List.mem_filter] at ha
        exact ha.2)
    rw [hself] at hsub2
    have hlen := (((List.mergeSort_perm (frags.filterMap processFragment)
      (fun u v => decide (u.1 ≤ v.1))).filter
        (fun v : VolumeData => v.1 == n))).length_eq
    exact (hsub2.eq_of_length hlen.symm).symm

/-- C9 counterexample: the fragment labelled "Mark Twain:" (the classifier
splits it into author "Mark Twain" and an empty remainder) produces a
record whose title is the empty string, so not every emitted record has a
non-empty title. -/
theorem claim_c9_counterexample :
    ((1 : Nat), ([] : List Char), "Mark Twain".data, ([] : List Char),
        "Mark Twain:".data) ∈
      parse_volumes
        [⟨some (some []), some ("1".data), some ("Mark Twain:".data)⟩] ∧
    ((1 : Nat), ([] : List Char), "Mark Twain".data, ([] : List Char),
        "Mark Twain:".data).2.1 = ([] : List Char) := by
  have h : processFragment
      ⟨some (some []), some ("1".data), some ("Mark Twain:".data)⟩
        = some (1, [], "Mark Twain".data, [], "Mark Twain:".data) := by decide
  exact ⟨by simp [parse_volumes, List.filterMap_cons, h], rfl⟩

/-- C9 (amended): every record emitted by the parser has a non-empty title,
provided its (trimmed) original label is non-empty and, whenever the
classifier judges the pre-colon candidate an author, the text after the
first colon is not all whitespace. -/
theorem claim_c9_amended (frags : List BookElement) (r : VolumeData)
    (hr : r ∈ parse_volumes frags)
    (hne : r.2.2.2.2 ≠ [])
    (hafter : ∀ bc ac, splitFirstColon r.2.2.2.2 = some (bc, ac) →
        is_likely_author (trimChars bc) = true → trimChars ac ≠ []) :
    r.2.1 ≠ [] := by
  simp only [parse_volumes, List.mem_mergeSort, List.mem_filterMap] at hr
  obtain ⟨b, _, hpf⟩ := hr
  obtain ⟨lk, nm, tl⟩ := b
  cases lk with
  | none => simp [processFragment] at hpf
  | some link =>
    cases nm with
    | none => simp [processFragment] at hpf
    | some numtext =>
      cases tl with
      | none => simp [processFragment] at hpf
      | some titleraw =>
        simp only [processFragment] at hpf
        split at hpf
        · rw [Option.some_inj] at hpf
          subst hpf
          rcases hsc : splitFirstColon (trimChars titleraw) with _ | ⟨bc, ac⟩
          · simpa [classify, hsc] using hne
          · by_cases hla : is_likely_author (trimChars bc) = true
            · simpa [classify, hsc, hla] using hafter bc ac hsc hla
            · have hla' : is_likely_author (trimChars bc) = false := by
                cases h : is_likely_author (trimChars bc)
                · rfl
                · exact absurd h hla
              simpa [classify, hsc, hla'] using hne
        · simp at hpf

/-- Witness for C9 (amended): the fragment labelled "Mark Twain: Tom"
produces a record whose title "Tom" is non-empty. -/
theorem claim_c9_witness :
    ((1 : Nat), "Tom".data, "Mark Twain".data, ([] : List Char),
      "Mark Twain: Tom".data).2.1 ≠ ([] : List Char) := by
  have hpf : processFragment
      ⟨some (some []), some ("1".data), some ("Mark Twain: Tom".data)⟩
        = some (1, "Tom".data, "Mark Twain".data, [], "Mark Twain: Tom".data) := by
    decide
  have hmem : ((1 : Nat), "Tom".data, "Mark Twain".data, ([] : List Char),
      "Mark Twain: Tom".data) ∈
        parse_volumes
          [⟨some (some []), some ("1".data), some ("Mark Twain: Tom".data)⟩] := by
    simp [parse_volumes, List.filterMap_cons, hpf]
  refine claim_c9_amended _ _ hmem (by decide) ?_
  intro bc ac hsc _
  have hcalc : splitFirstColon ("Mark Twain: Tom".data)
      = some ("Mark Twain".data, " Tom".data) := by decide
  have hsc' := hcalc.symm.trans hsc
  rw [Option.some_inj, Prod.mk.injEq] at hsc'
  obtain ⟨h1, h2⟩ := hsc'
  subst h1
  subst h2
  decide

/-- Every path of the resolver yields an `Ok` value (the Rust function
never returns `Err`). -/
theorem get_wikipedia_link_isOk (author : String) (resp : ResponseOutcome) :
    ∃ s, get_wikipedia_link author resp = .ok s := by
  unfold get_wikipedia_link
  repeat' split
  all_goals exact ⟨_, rfl⟩

/-- C7: the enrichment resolver never fails — every outcome produces an
`Ok` result; an empty author or the sentinel "Unknown" yields the empty
string for every response outcome (no lookup is consulted); and a network
failure, a body-read failure, an all-whitespace body, a JSON-decode
failure, a missing or non-array 4th element, an empty 4th array, or a
first element that is not a non-empty string all yield the empty string. -/
theorem claim_c7 :
    (∀ (author : String) (resp : ResponseOutcome),
        ∃ s, get_wikipedia_link author resp = .ok s) ∧
    (∀ resp, get_wikipedia_link "" resp = .ok "") ∧
    (∀ resp, get_wikipedia_link "Unknown" resp = .ok "") ∧
    (∀ author, get_wikipedia_link author .send_error = .ok "") ∧
    (∀ author, get_wikipedia_link author .text_error = .ok "") ∧
    (∀ author body decoded, trimChars body.data = [] →
        get_wikipedia_link author (.text body decoded) = .ok "") ∧
    (∀ author body, get_wikipedia_link author (.text body none) = .ok "") ∧
    (∀ author body j, (jsonGet j 3).bind asArray = none →
        get_wikipedia_link author (.text body (some j)) = .ok "") ∧
    (∀ author body j urls, (jsonGet j 3).bind asArray = some urls →
        urls.head?.bind asStr = none →
        get_wikipedia_link author (.text body (some j)) = .ok "") ∧
    (∀ author body j urls url, (jsonGet j 3).bind asArray = some urls →
        urls.head?.bind asStr = some url → url.isEmpty = true →
        get_wikipedia_link author (.text body (some j)) = .ok "") := by
  refine ⟨get_wikipedia_link_isOk, ?_, ?_, ?_, ?_, ?_, ?_, ?_, ?_, ?_⟩
  · intro resp; rfl
  · intro resp; rfl
  · intro author
    by_cases hg : (author.isEmpty || author == "Unknown") = true <;>
      simp [get_wikipedia_link, hg]
  · intro author
    by_cases hg : (author.isEmpty || author == "Unknown") = true <;>
      simp [get_wikipedia_link, hg]
  · intro author body decoded h
    by_cases hg : (author.isEmpty || author == "Unknown") = true <;>
      simp [get_wikipedia_link, hg, h]
  · intro author body
    by_cases hg : (author.isEmpty || author == "Unknown") = true <;>
      simp [get_wikipedia_link, hg]
  · intro author body j h
    by_cases hg : (author.isEmpty || author == "Unknown") = true <;>
      simp [get_wikipedia_link, hg, h]
  · intro author body j urls h hnone
    by_cases hg : (author.isEmpty || author == "Unknown") = true <;>
      simp [get_wikipedia_link, hg, h, hnone]
  · intro author body j urls url h hsome hempty
    by_cases hg : (author.isEmpty || author == "Unknown") = true <;>
      simp [get_wikipedia_link, hg, h, hsome, hempty]

/-- Witness for C7: concrete malformed responses (whitespace body, JSON
decode failure, non-array value, empty URL array, array with a non-string
first element, array with an empty-string first element) all resolve to
the empty string. -/
theorem claim_c7_witness :
    get_wikipedia_link "Mark Twain" (.text "   " (some .null)) = .ok "" ∧
    get_wikipedia_link "Mark Twain" (.text "x" none) = .ok "" ∧
    get_wikipedia_link "Mark Twain" (.text "x" (some .null)) = .ok "" ∧
    get_wikipedia_link "Mark Twain"
      (.text "x" (some (.arr [.str "q", .arr [], .arr [], .arr []]))) = .ok "" ∧
    get_wikipedia_link "Mark Twain"
      (.text "x" (some (.arr [.str "q", .arr [], .arr [], .arr [.num 3]])))
        = .ok "" ∧
    get_wikipedia_link "Mark Twain"
      (.text "x" (some (.arr [.str "q", .arr [], .arr [], .arr [.str ""]])))
        = .ok "" :=
  ⟨claim_c7.2.2.2.2.2.1 "Mark Twain" "   " (some .null) (by decide),
   claim_c7.2.2.2.2.2.2.1 "Mark Twain" "x",
   claim_c7.2.2.2.2.2.2.2.1 "Mark Twain" "x" .null rfl,
   claim_c7.2.2.2.2.2.2.2.2.1 "Mark Twain" "x"
     (.arr [.str "q", .arr [], .arr [], .arr []]) [] rfl rfl,
   claim_c7.2.2.2.2.2.2.2.2.1 "Mark Twain" "x"
     (.arr [.str "q", .arr [], .arr [], .arr [.num 3]]) [.num 3] rfl rfl,
   claim_c7.2.2.2.2.2.2.2.2.2 "Mark Twain" "x"
     (.arr [.str "q", .arr [], .arr [], .arr [.str ""]]) [.str ""] "" rfl rfl
     rfl⟩

/-- C8: for every record written to the output sink, an empty author field
forces an empty author profile link field. -/
theorem claim_c8 (d : VolumeData) (resp : ResponseOutcome)
    (h : (make_volume d resp).author = "") :
    (make_volume d resp).author_wikipedia_link = "" := by
  have h' : String.mk d.2.2.1 = "" := h
  show unwrapOrDefault (get_wikipedia_link (String.mk d.2.2.1) resp) = ""
  rw [h']
  rfl

/-- Witness for C8: a record with an empty author gets an empty Wikipedia
link. -/
theorem claim_c8_witness :
    (make_volume (1, "T".data, [], [], "L".data) .send_error).author_wikipedia_link
      = "" :=
  claim_c8 (1, "T".data, [], [], "L".data) .send_error rfl

end Loa
